import Mathlib

/-!
Verification development for the AgentBounty browser client
(static/js/app.js, static/js/auth.js).

The client-side procedures are embedded as pure Lean functions:

* `handleCompletedTask` — the branch dispatch of the result-resolution
  procedure in app.js, as a function of the fetched task-result body;
* `pollForCIBAApproval` — the bounded approval-polling loop in app.js,
  with the sequence of server responses supplied as an environment;
* `loadTasksTick` — one tick of the task-list polling loop in app.js;
* `promptForPayment` / `approveClick` — the payment procedure in app.js,
  with wallet and server behaviour supplied as an environment;
* `fetchFromAPI` — the shared API fetch wrapper in auth.js;
* `taskLimitWarning`, `agentCardIsDisabled`, `submitModalTaskErrorAlert` —
  the task-limit rendering and creation-failure handling in auth.js.
-/

namespace AgentBounty

/-- The body of a task-result response as consumed by `handleCompletedTask`
(app.js). Absent JSON fields are `none`; `requires_ciba` is a truthiness
test in the source, so an absent field is `false`. -/
structure TaskResult where
  status_code : Option Nat
  requires_ciba : Bool
  ciba_status : Option String
  status : Option String
  content : Option String
  message : Option String
  preview : Option String
  ciba_request_id : Option String
deriving DecidableEq, Repr

/-- JavaScript `x || d` on an optional string field: the default is taken
when the field is absent or the empty string (both falsy). -/
def jsOrString (o : Option String) (d : String) : String :=
  match o with
  | some s => if s = "" then d else s
  | none => d

/-- Truthiness of `result.content` in the source: present and non-empty. -/
def contentTruthy (r : TaskResult) : Bool :=
  match r.content with
  | some c => decide (c ≠ "")
  | none => false

/-- The panel rendered into the result container by the result-resolution
procedure. `approvalDenied` records whether the 403 body said `expired`
(the source renders the text Expired instead of Denied in that case). -/
inductive Panel where
  | approvalDenied (expired : Bool)
  | cibaPendingPanel
  | cibaApprovalPanel
  | payButton
  | failedPanel
  | contentPanel (content : String)
  | notReady (msg : String)
deriving DecidableEq, Repr

/-- Branch dispatch of `handleCompletedTask` in app.js, as a function of the
fetched result body: the nested if/else chain on `status_code`,
`requires_ciba`, `ciba_status`, `status` and `content`. -/
def handleCompletedTask (r : TaskResult) : Panel :=
  if r.status_code = some 403 then
    .approvalDenied (decide (r.ciba_status = some "expired"))
  else if r.status_code = some 402 then
    if r.requires_ciba then
      if r.ciba_status = some "pending" then .cibaPendingPanel
      else .cibaApprovalPanel
    else .payButton
  else if r.status = some "failed" then .failedPanel
  else if contentTruthy r then .contentPanel (r.content.getD "")
  else .notReady (jsOrString r.message "Result not ready")

/-- Whether a panel comes with the approval-polling procedure being started
(the two CIBA branches of `handleCompletedTask` call `pollForCIBAApproval`). -/
def startsApprovalPolling : Panel → Bool
  | .cibaPendingPanel => true
  | .cibaApprovalPanel => true
  | _ => false

/-- Whether a panel presents a payment action (the pay-to-unlock button,
whose click handler invokes `promptForPayment`). -/
def presentsPaymentAction : Panel → Bool
  | .payButton => true
  | _ => false

/-- First entry of the list whose condition holds, else the default. -/
def firstMatch : List (Bool × Panel) → Panel → Panel
  | [], d => d
  | (c, p) :: rest, d => if c then p else firstMatch rest d

/-- The result-resolution branch table as the spec words it: an ordered list
of guard/panel pairs, the first guard that holds deciding the panel, with
the generic not-ready message as the final fallback. -/
def specResultResolution (r : TaskResult) : Panel :=
  firstMatch
    [ (decide (r.status_code = some 403),
        .approvalDenied (decide (r.ciba_status = some "expired")))
    , (decide (r.status_code = some 402) && r.requires_ciba
         && decide (r.ciba_status = some "pending"), .cibaPendingPanel)
    , (decide (r.status_code = some 402) && r.requires_ciba
         && !(decide (r.ciba_status = some "pending")), .cibaApprovalPanel)
    , (decide (r.status_code = some 402) && !r.requires_ciba, .payButton)
    , (decide (r.status = some "failed"), .failedPanel)
    , (contentTruthy r, .contentPanel (r.content.getD "")) ]
    (.notReady (jsOrString r.message "Result not ready"))

/-- Claim C1: for every task-result response the result-resolution procedure
renders exactly the panel selected by the first matching guard of the fixed
precedence list (403 denial, 402 with pending approval, 402 with approval
not pending, 402 without approval, failed, content, generic not-ready), and
the approval-polling procedure is started exactly on the two 402-with-
approval branches. -/
theorem handleCompletedTask_follows_spec_precedence (r : TaskResult) :
    handleCompletedTask r = specResultResolution r ∧
    startsApprovalPolling (handleCompletedTask r)
      = (decide (r.status_code = some 402) && r.requires_ciba) := by
  unfold handleCompletedTask specResultResolution
  by_cases h403 : r.status_code = some 403 <;>
    by_cases h402 : r.status_code = some 402 <;>
      by_cases hciba : r.requires_ciba = true <;>
        by_cases hpend : r.ciba_status = some "pending" <;>
          by_cases hfail : r.status = some "failed" <;>
            by_cases hcont : contentTruthy r = true <;>
              simp_all [startsApprovalPolling, firstMatch]

/-- A task-result body carrying both a payment-required status code and the
failed status, with no approval requirement: the 402 branch of the source
is checked before the failed branch. -/
def resultFailed402 : TaskResult :=
  { status_code := some 402
  , requires_ciba := false
  , ciba_status := none
  , status := some "failed"
  , content := none
  , message := some "Payment required"
  , preview := none
  , ciba_request_id := none }

/-- Claim C2 counterexample: a task-result response with status failed but
status code 402 and no approval requirement is rendered as the pay-to-unlock
button, a payment action, not as the error panel — so the claim as stated
(every response with status failed gets the error panel and never a payment
action) is false on the code. -/
theorem failed_response_can_present_payment :
    resultFailed402.status = some "failed" ∧
    handleCompletedTask resultFailed402 = Panel.payButton ∧
    presentsPaymentAction (handleCompletedTask resultFailed402) = true := by
  refine ⟨rfl, ?_, ?_⟩ <;> rfl

/-- A payment action is only ever presented for a 402 response without an
approval requirement: for every other response shape the rendered panel
carries no payment action. -/
theorem paymentAction_only_402_without_ciba (r : TaskResult)
    (h : presentsPaymentAction (handleCompletedTask r) = true) :
    r.status_code = some 402 ∧ r.requires_ciba = false := by
  unfold handleCompletedTask at h
  by_cases g403 : r.status_code = some 403 <;>
    by_cases g402 : r.status_code = some 402 <;>
      by_cases gciba : r.requires_ciba = true <;>
        by_cases gpend : r.ciba_status = some "pending" <;>
          by_cases gfail : r.status = some "failed" <;>
            by_cases gcont : contentTruthy r = true <;>
              simp_all [presentsPaymentAction]

/-- Claim C2 amended: for every task-result response with status failed
whose status code is neither 402 nor 403, the result-resolution procedure
renders the error panel and presents no payment action. -/
theorem failed_response_renders_error_panel (r : TaskResult)
    (hfail : r.status = some "failed")
    (h402 : r.status_code ≠ some 402) (h403 : r.status_code ≠ some 403) :
    handleCompletedTask r = Panel.failedPanel ∧
    presentsPaymentAction (handleCompletedTask r) = false := by
  constructor
  · unfold handleCompletedTask
    simp [h402, h403, hfail]
  · unfold handleCompletedTask
    simp [h402, h403, hfail, presentsPaymentAction]

/-- A plain failed task-result body: no status code, status failed. -/
def resultFailedPlain : TaskResult :=
  { status_code := none
  , requires_ciba := false
  , ciba_status := none
  , status := some "failed"
  , content := none
  , message := none
  , preview := none
  , ciba_request_id := none }

/-- Witness for the amended claim C2 at a concrete failed response. -/
theorem failed_response_renders_error_panel_witness :
    handleCompletedTask resultFailedPlain = Panel.failedPanel ∧
    presentsPaymentAction (handleCompletedTask resultFailedPlain) = false :=
  failed_response_renders_error_panel resultFailedPlain rfl
    (by simp [resultFailedPlain]) (by simp [resultFailedPlain])

/-! ## Approval polling (`pollForCIBAApproval` in app.js) -/

/-- Outcome of one status-check request inside the polling loop: the parsed
body (its `status` string) for a request that resolves, `err` for a request
that throws. -/
inductive PollResp where
  | ok (status : String)
  | err
deriving DecidableEq, Repr

/-- A user-visible event emitted by the polling loop itself: re-invoking the
result-resolution procedure after approval, or rendering the terminal
denied/expired panel. -/
inductive RenderEvent where
  | reResolve
  | terminalPanel (status : String)
deriving DecidableEq, Repr

/-- How the loop ended. -/
inductive PollOutcome where
  | approvedReload
  | terminal (status : String)
  | errored
  | timeout
deriving DecidableEq, Repr

/-- Trace of one run of the polling loop: how many status-check requests
were issued, the awaited delays in milliseconds, the render events the loop
itself emitted, and how it ended. -/
structure PollTrace where
  attempts : Nat
  delays : List Nat
  renders : List RenderEvent
  outcome : PollOutcome
deriving DecidableEq, Repr

/-- The polling for-loop of `pollForCIBAApproval`, by remaining attempts.
Each iteration issues one status check (`env 0`, the environment shifted as
the loop advances): a throw breaks the loop, `approved` re-invokes the
result-resolution procedure and returns, `denied`/`expired` renders the
terminal panel and returns, anything else awaits 5000 ms and continues. -/
def pollForCIBAAux (env : Nat → PollResp) : Nat → PollTrace
  | 0 => ⟨0, [], [], .timeout⟩
  | rem + 1 =>
    match env 0 with
    | .err => ⟨1, [], [], .errored⟩
    | .ok s =>
      if s = "approved" then ⟨1, [], [.reResolve], .approvedReload⟩
      else if s = "denied" ∨ s = "expired" then
        ⟨1, [], [.terminalPanel s], .terminal s⟩
      else
        let t := pollForCIBAAux (fun i => env (i + 1)) rem
        ⟨t.attempts + 1, 5000 :: t.delays, t.renders, t.outcome⟩

/-- `pollForCIBAApproval` in app.js: the loop with its default budget of 60
attempts, run against the sequence of status-check outcomes `env`. -/
def pollForCIBAApproval (env : Nat → PollResp) : PollTrace :=
  pollForCIBAAux env 60

/-- Bound lemma for the polling loop: at most as many status checks as the
remaining budget, every awaited delay is 5000 ms, and a run that times out
has emitted no render event. -/
theorem pollForCIBAAux_bounded (env : Nat → PollResp) (rem : Nat) :
    (pollForCIBAAux env rem).attempts ≤ rem ∧
    ((pollForCIBAAux env rem).delays.all (fun d => d = 5000)) = true ∧
    ((pollForCIBAAux env rem).outcome = PollOutcome.timeout →
      (pollForCIBAAux env rem).renders = []) := by
  induction rem generalizing env with
  | zero => simp [pollForCIBAAux]
  | succ n ih =>
    unfold pollForCIBAAux
    match h : env 0 with
    | .err => simp
    | .ok s =>
      by_cases ha : s = "approved"
      · simp [ha]
      · by_cases hd : s = "denied" ∨ s = "expired"
        · simp [ha, hd]
        · have := ih (fun i => env (i + 1))
          simp only [ha, hd, if_false, if_true, ite_false]
          refine ⟨Nat.succ_le_succ this.1, ?_, this.2.2⟩
          simp [this.2.1]

/-- Claim C3: for every sequence of status-check outcomes, the approval
polling procedure issues at most 60 status checks, every delay between
attempts is the fixed 5000 ms, and on exhausting the budget without a
terminal status it stops without emitting any render event (the loop is a
total function, so it always terminates). -/
theorem pollForCIBAApproval_bounded_and_silent (env : Nat → PollResp) :
    (pollForCIBAApproval env).attempts ≤ 60 ∧
    ((pollForCIBAApproval env).delays.all (fun d => d = 5000)) = true ∧
    ((pollForCIBAApproval env).outcome = PollOutcome.timeout →
      (pollForCIBAApproval env).renders = []) :=
  pollForCIBAAux_bounded env 60

/-- The environment whose checks all report a still-pending approval. -/
def envAllPending : Nat → PollResp := fun _ => PollResp.ok "pending"

/-- Witness for claim C3 at the all-pending environment, where the budget
is exhausted. -/
theorem pollForCIBAApproval_bounded_and_silent_witness :
    (pollForCIBAApproval envAllPending).attempts ≤ 60 ∧
    ((pollForCIBAApproval envAllPending).delays.all (fun d => d = 5000)) = true ∧
    ((pollForCIBAApproval envAllPending).outcome = PollOutcome.timeout →
      (pollForCIBAApproval envAllPending).renders = []) :=
  pollForCIBAApproval_bounded_and_silent envAllPending

/-- A status string that leaves the loop running: neither approved nor
denied nor expired. -/
def nonTerminalOk (p : PollResp) : Prop :=
  ∃ s, p = PollResp.ok s ∧ s ≠ "approved" ∧ s ≠ "denied" ∧ s ≠ "expired"

/-- Behaviour of the polling loop at the first decisive response: if the
first `n` checks return non-terminal statuses and the check at index `n`
(within budget) returns approved, denied/expired, or throws, the whole run
is exactly `n` pending iterations (each with one 5000 ms delay) followed by
the corresponding exit. -/
theorem pollForCIBAAux_hits (n : Nat) :
    ∀ (env : Nat → PollResp) (rem : Nat), n < rem →
    (∀ i, i < n → nonTerminalOk (env i)) →
    ((env n = PollResp.ok "approved" →
      pollForCIBAAux env rem
        = ⟨n + 1, List.replicate n 5000, [RenderEvent.reResolve],
            PollOutcome.approvedReload⟩) ∧
    (∀ s, (s = "denied" ∨ s = "expired") → env n = PollResp.ok s →
      pollForCIBAAux env rem
        = ⟨n + 1, List.replicate n 5000, [RenderEvent.terminalPanel s],
            PollOutcome.terminal s⟩) ∧
    (env n = PollResp.err →
      pollForCIBAAux env rem
        = ⟨n + 1, List.replicate n 5000, [], PollOutcome.errored⟩)) := by
  induction n with
  | zero =>
    intro env rem hrem _
    match rem, hrem with
    | m + 1, _ =>
      refine ⟨?_, ?_, ?_⟩
      · intro h0
        simp [pollForCIBAAux, h0]
      · intro s hs h0
        rcases hs with hs | hs <;> simp [pollForCIBAAux, h0, hs]
      · intro h0
        simp [pollForCIBAAux, h0]
  | succ n ih =>
    intro env rem hrem hpre
    match rem, hrem with
    | m + 1, hrem =>
      have hm : n < m := Nat.lt_of_succ_lt_succ hrem
      obtain ⟨s0, h0, hs0a, hs0d, hs0e⟩ := hpre 0 (Nat.succ_pos n)
      have hpre' : ∀ i, i < n → nonTerminalOk ((fun i => env (i + 1)) i) :=
        fun i hi => hpre (i + 1) (Nat.succ_lt_succ hi)
      have step : pollForCIBAAux env (m + 1)
          = ⟨(pollForCIBAAux (fun i => env (i + 1)) m).attempts + 1,
              5000 :: (pollForCIBAAux (fun i => env (i + 1)) m).delays,
              (pollForCIBAAux (fun i => env (i + 1)) m).renders,
              (pollForCIBAAux (fun i => env (i + 1)) m).outcome⟩ := by
        simp [pollForCIBAAux, h0, hs0a, hs0d, hs0e]
      obtain ⟨iha, ihd, ihe⟩ := ih (fun i => env (i + 1)) m hm hpre'
      refine ⟨?_, ?_, ?_⟩
      · intro hn
        rw [step, iha hn]
        simp [List.replicate_succ]
      · intro s hs hn
        rw [step, ihd s hs hn]
        simp [List.replicate_succ]
      · intro hn
        rw [step, ihe hn]
        simp [List.replicate_succ]

/-- Claim C4: if the first `n` status checks observe a non-terminal status
and the check at index `n` (within the 60-attempt budget) observes
approved, the loop re-invokes the result-resolution procedure and stops
after exactly `n + 1` checks; if it observes denied or expired, the loop
renders exactly the terminal panel and stops after exactly `n + 1` checks —
in both cases no further status check is issued and no pending panel is
emitted by the loop. -/
theorem pollForCIBAApproval_terminal_stops (env : Nat → PollResp) (n : Nat)
    (hn : n < 60) (hpre : ∀ i, i < n → nonTerminalOk (env i)) :
    (env n = PollResp.ok "approved" →
      pollForCIBAApproval env
        = ⟨n + 1, List.replicate n 5000, [RenderEvent.reResolve],
            PollOutcome.approvedReload⟩) ∧
    (∀ s, (s = "denied" ∨ s = "expired") → env n = PollResp.ok s →
      pollForCIBAApproval env
        = ⟨n + 1, List.replicate n 5000, [RenderEvent.terminalPanel s],
            PollOutcome.terminal s⟩) :=
  ⟨(pollForCIBAAux_hits n env 60 hn hpre).1,
   (pollForCIBAAux_hits n env 60 hn hpre).2.1⟩

/-- Two pending responses followed by approval. -/
def envApprovedAtTwo : Nat → PollResp :=
  fun i => if i < 2 then PollResp.ok "pending" else PollResp.ok "approved"

/-- Witness for claim C4: with approval observed on the third check, the
loop stops after exactly three checks, having re-invoked result
resolution. -/
theorem pollForCIBAApproval_terminal_stops_witness :
    pollForCIBAApproval envApprovedAtTwo
      = ⟨3, List.replicate 2 5000, [RenderEvent.reResolve],
          PollOutcome.approvedReload⟩ :=
  (pollForCIBAApproval_terminal_stops envApprovedAtTwo 2 (by decide)
    (fun i hi => ⟨"pending", by simp [envApprovedAtTwo, hi], by decide,
      by decide, by decide⟩)).1 (by simp [envApprovedAtTwo])

/-- Claim C7: if the first `n` status checks observe a non-terminal status
and the request at index `n` (within budget) throws, the loop stops
immediately: the failed request is the last one issued (no retry, no
further attempts) and the loop renders nothing. -/
theorem pollForCIBAApproval_error_breaks (env : Nat → PollResp) (n : Nat)
    (hn : n < 60) (hpre : ∀ i, i < n → nonTerminalOk (env i))
    (herr : env n = PollResp.err) :
    pollForCIBAApproval env
      = ⟨n + 1, List.replicate n 5000, [], PollOutcome.errored⟩ :=
  (pollForCIBAAux_hits n env 60 hn hpre).2.2 herr

/-- One pending response, then a request failure. -/
def envErrAtOne : Nat → PollResp :=
  fun i => if i < 1 then PollResp.ok "pending" else PollResp.err

/-- Witness for claim C7: with the second request throwing, the loop stops
after exactly two issued requests and renders nothing. -/
theorem pollForCIBAApproval_error_breaks_witness :
    pollForCIBAApproval envErrAtOne
      = ⟨2, List.replicate 1 5000, [], PollOutcome.errored⟩ :=
  pollForCIBAApproval_error_breaks envErrAtOne 1 (by decide)
    (fun i hi => ⟨"pending", by simp [envErrAtOne, hi], by decide,
      by decide, by decide⟩) (by simp [envErrAtOne])

/-! ## Task-list polling tick (`loadTasks` in app.js) -/

/-- A task as the list renderer and the polling tick consume it. -/
structure Task where
  id : String
  status : String
deriving DecidableEq, Repr

/-- Effects of one `loadTasks` tick: whether the repeating 3-second timer is
active afterwards, whether the list was (re-)rendered this tick, and which
completed tasks had the result-resolution procedure invoked. -/
structure TickResult where
  polling : Bool
  renderedList : Bool
  resolved : List String
deriving DecidableEq, Repr

/-- One tick of `loadTasks` in app.js, as a function of the fetch outcome
and the prior timer state. On success: render the list, invoke result
resolution for every completed task, then start the timer when some task is
running and it is not yet active, stop it when none is running and it is
active, and otherwise leave it. On a failed fetch the catch block only
logs: nothing is rendered, nothing resolved, the timer untouched. -/
def loadTasksTick (resp : Except Unit (List Task)) (polling : Bool) :
    TickResult :=
  match resp with
  | .error _ => ⟨polling, false, []⟩
  | .ok ts =>
    let hasRunningTasks := ts.any (fun t => t.status == "running")
    let resolved := (ts.filter (fun t => t.status == "completed")).map Task.id
    let polling' :=
      if hasRunningTasks && !polling then true
      else if !hasRunningTasks && polling then false
      else polling
    ⟨polling', true, resolved⟩

/-- Claim C5: after every successful tick the task-poll timer is active if
and only if some fetched task has status running, and a failed fetch leaves
the timer exactly as it was, renders nothing and resolves nothing. -/
theorem loadTasksTick_timer_iff_running (ts : List Task) (polling : Bool) :
    (loadTasksTick (Except.ok ts) polling).polling
      = ts.any (fun t => t.status == "running") ∧
    loadTasksTick (Except.error ()) polling
      = ⟨polling, false, []⟩ := by
  constructor
  · unfold loadTasksTick
    cases h : ts.any (fun t => t.status == "running") <;> cases polling <;> simp [h]
  · rfl

/-! ## The shared API fetch wrapper (`fetchFromAPI` in auth.js) -/

/-- A parsed JSON body as the wrapper and its callers inspect it:
the optional `detail` and `message` fields and the full
`JSON.stringify` rendering used as the last fallback. -/
structure ApiBody where
  detail : Option String
  message : Option String
  stringified : String
deriving DecidableEq, Repr

/-- The raw HTTP response handed to the wrapper: the `ok` flag, numeric
status, status text, and the JSON body when the body parses
(`none` models a body `response.json()` rejects on). -/
structure HttpResponse where
  ok : Bool
  status : Nat
  statusText : String
  jsonBody : Option ApiBody
deriving DecidableEq, Repr

/-- A thrown JavaScript `Error` as callers observe it: a plain `Error` has
only a message; it carries no `status` property unless one is assigned,
hence the optional field. -/
structure ApiError where
  status : Option Nat
  message : String
deriving DecidableEq, Repr

/-- What a `fetchFromAPI` call does: resolve with a parsed body, or throw. -/
inductive FetchOutcome where
  | ok (body : ApiBody)
  | thrown (e : ApiError)
deriving DecidableEq, Repr

/-- The message chain `errorData.detail || errorData.message ||
JSON.stringify(errorData)` of the non-OK branch. -/
def bodyErrorMessage (b : ApiBody) : String :=
  jsOrString b.detail (jsOrString b.message b.stringified)

/-- The try block of the non-OK branch of `fetchFromAPI`: parse the body
(a parse failure rejects), build the detailed message, and throw it. The
block therefore always ends in an exception. -/
def tryDetailBranch (resp : HttpResponse) : Except String ApiBody :=
  match resp.jsonBody with
  | none => Except.error "body is not JSON"
  | some b => Except.error ("API request failed: " ++ bodyErrorMessage b)

/-- `fetchFromAPI` in auth.js as a function of the HTTP response. For a
non-OK response with status 402 or 403 the parsed body is returned; for any
other non-OK response the try block always throws, its exception lands in
the catch block of the same statement, and the catch block replaces it with
the status-text error — so the detailed message never escapes. An OK
response resolves with its parsed body; an unparseable body rejects. -/
def fetchFromAPI (resp : HttpResponse) : FetchOutcome :=
  if !resp.ok then
    if resp.status = 402 ∨ resp.status = 403 then
      match resp.jsonBody with
      | some b => .ok b
      | none => .thrown ⟨none, "body is not JSON"⟩
    else
      match tryDetailBranch resp with
      | .error _e => .thrown ⟨none, "API request failed: " ++ resp.statusText⟩
      | .ok b => .ok b
  else
    match resp.jsonBody with
    | some b => .ok b
    | none => .thrown ⟨none, "body is not JSON"⟩

/-- A 400 response whose parseable body carries the server detail message:
the input on which the wrapper discards the detail. -/
def resp400WithDetail : HttpResponse :=
  { ok := false
  , status := 400
  , statusText := "Bad Request"
  , jsonBody := some
      { detail := some "Task limit reached. You already have 3 active tasks."
      , message := none
      , stringified := "stringified body" } }

/-- Claim C10: the wrapper is documented (in its own comment) to surface the
detail/message field of a parseable error body, but the `throw` carrying
that detail sits inside the `try` block, is caught by the adjacent `catch`,
and is replaced by the status-text error — evaluated here on a 400 response
whose body does carry a detail field. -/
theorem fetchFromAPI_discards_parseable_detail :
    resp400WithDetail.jsonBody.map bodyErrorMessage
      = some "Task limit reached. You already have 3 active tasks." ∧
    fetchFromAPI resp400WithDetail
      = FetchOutcome.thrown ⟨none, "API request failed: Bad Request"⟩ := by
  exact ⟨rfl, rfl⟩

/-! ## Payment procedure (`promptForPayment` in app.js) -/

/-- The EIP-712 message fields of the payment descriptor. -/
structure PaymentMsg where
  fromAddr : String
  toAddr : String
  value : String
  validAfter : String
  validBefore : String
  nonce : String
deriving DecidableEq, Repr

/-- The payment descriptor: the amount in USDC base units (optional, since
the source guards on its presence), the EIP-712 domain and message. -/
structure Payment where
  amount_usdc : Option String
  domain : String
  message : PaymentMsg
deriving DecidableEq, Repr

/-- The first argument of `promptForPayment`: either a result object whose
`payment` field holds the descriptor, or the descriptor itself (the source
extracts with `paymentReq.payment || paymentReq`). -/
inductive PaymentReq where
  | wrapped (p : Payment)
  | bare (p : Payment)
deriving DecidableEq, Repr

/-- The extraction `paymentReq.payment || paymentReq`. -/
def PaymentReq.extract : PaymentReq → Payment
  | .wrapped p => p
  | .bare p => p

/-- The three numeric components `ethers.utils.splitSignature` returns. -/
structure SplitSig where
  v : Nat
  r : String
  s : String
deriving DecidableEq, Repr

/-- The body POSTed to the payments authorization endpoint in real mode. -/
structure AuthBody where
  task_id : String
  from_address : String
  amount_usdc : Option String
  valid_after : String
  valid_before : String
  nonce : String
  sig_v : Nat
  sig_r : String
  sig_s : String
deriving DecidableEq, Repr

/-- A request issued to the authorization endpoint: the demo variant sends
only the task identifier; the real variant sends the full body. -/
inductive AuthRequest where
  | demo (task_id : String)
  | real (body : AuthBody)
deriving DecidableEq, Repr

/-- The wallet and server behaviour the approve-click handler runs
against: the demo-mode flag, presence of an injected provider, the current
chain, the outcomes of the two chain-management provider calls (the switch
error carries its numeric code), the typed-data signing outcome, the
signature-splitting library call, and the authorization response. -/
structure WalletEnv where
  isDemo : Bool
  ethereumPresent : Bool
  chainId : Nat
  switchChain : Except Nat Unit
  addChain : Except Unit Unit
  signTypedData : Except Unit String
  splitSignature : String → SplitSig
  authorizeOk : Bool
  authorizeSuccess : Bool

/-- Observable effects of the payment procedure: alert messages raised,
whether the payment modal was shown, provider calls made, authorization
requests issued, whether the unlocked result was rendered, and whether the
modal was hidden on success. -/
structure PromptOutcome where
  alerts : List String
  modalShown : Bool
  walletCalls : List String
  requests : List AuthRequest
  renderedResult : Bool
  modalHidden : Bool
deriving DecidableEq, Repr

/-- The network check of the real path: no provider call when already on
chain 84532; otherwise try the switch call, and only when it fails with
code 4902 try the add-chain call. A failure propagates to the catch
block. -/
def ensureChain (env : WalletEnv) : Except Unit (List String) :=
  if env.chainId = 84532 then Except.ok []
  else
    match env.switchChain with
    | .ok _ => Except.ok ["wallet_switchEthereumChain"]
    | .error code =>
      if code = 4902 then
        match env.addChain with
        | .ok _ => Except.ok ["wallet_switchEthereumChain", "wallet_addEthereumChain"]
        | .error _ => Except.error ()
      else Except.error ()

/-- The generic failure outcome of the catch block of the approve handler:
alert, button restored, nothing rendered, modal left up. -/
def payFailureOutcome (wallet : List String) (reqs : List AuthRequest) :
    PromptOutcome :=
  ⟨["Payment failed. Please try again."], true, wallet, reqs, false, false⟩

/-- The approve-click handler of `promptForPayment`: demo mode posts the
parameterized authorize call with only the task identifier; real mode
requires a provider, ensures the chain, requests the typed-data signature,
splits it, and posts the full authorization body; any throw lands in the
catch block. On success the result is rendered and the modal hidden. -/
def approveClick (payment : Payment) (taskId userAddress : String)
    (env : WalletEnv) : PromptOutcome :=
  if env.isDemo then
    let reqs := [AuthRequest.demo taskId]
    if env.authorizeSuccess then ⟨[], true, [], reqs, true, true⟩
    else payFailureOutcome [] reqs
  else if !env.ethereumPresent then
    payFailureOutcome [] []
  else
    match ensureChain env with
    | .error _ => payFailureOutcome ["getNetwork"] []
    | .ok chainCalls =>
      match env.signTypedData with
      | .error _ =>
        payFailureOutcome ("getNetwork" :: chainCalls ++ ["signTypedData"]) []
      | .ok sigStr =>
        let sig := env.splitSignature sigStr
        let body : AuthBody :=
          { task_id := taskId
          , from_address := userAddress
          , amount_usdc := payment.amount_usdc
          , valid_after := payment.message.validAfter
          , valid_before := payment.message.validBefore
          , nonce := payment.message.nonce
          , sig_v := sig.v
          , sig_r := sig.r
          , sig_s := sig.s }
        let wallet := "getNetwork" :: chainCalls ++ ["signTypedData"]
        let reqs := [AuthRequest.real body]
        if !env.authorizeOk then payFailureOutcome wallet reqs
        else if !env.authorizeSuccess then payFailureOutcome wallet reqs
        else ⟨[], true, wallet, reqs, true, true⟩

/-- `promptForPayment` in app.js followed by the user approving: extract
the descriptor; when `amount_usdc` is missing, raise the blocking alert and
return before the modal, any provider call or any request; otherwise show
the modal and run the approve handler. -/
def promptForPayment (req : PaymentReq) (taskId userAddress : String)
    (env : WalletEnv) : PromptOutcome :=
  match req.extract.amount_usdc with
  | none => ⟨["Payment data is invalid. Please try again."], false, [], [], false, false⟩
  | some _ => approveClick req.extract taskId userAddress env

/-- Claim C8: when the extracted payment descriptor has no `amount_usdc`,
the payment procedure raises exactly the blocking alert and stops: no modal,
no provider call, no network request, nothing rendered — independent of the
wallet environment. -/
theorem promptForPayment_missing_amount_aborts (req : PaymentReq)
    (taskId userAddress : String) (env : WalletEnv)
    (h : req.extract.amount_usdc = none) :
    promptForPayment req taskId userAddress env
      = ⟨["Payment data is invalid. Please try again."],
          false, [], [], false, false⟩ := by
  unfold promptForPayment
  rw [h]

/-- A descriptor with no amount. -/
def paymentNoAmount : Payment :=
  { amount_usdc := none
  , domain := "USDC"
  , message := ⟨"0xfrom", "0xto", "1500", "0", "9999", "0xnonce"⟩ }

/-- A wallet environment for the witnesses: real mode, provider present,
already on chain 84532, signing succeeds. -/
def envRealOk : WalletEnv :=
  { isDemo := false
  , ethereumPresent := true
  , chainId := 84532
  , switchChain := Except.ok ()
  , addChain := Except.ok ()
  , signTypedData := Except.ok "0xsig"
  , splitSignature := fun _ => ⟨27, "0xr", "0xs"⟩
  , authorizeOk := true
  , authorizeSuccess := true }

/-- Witness for claim C8 at a concrete descriptor with no amount. -/
theorem promptForPayment_missing_amount_aborts_witness :
    promptForPayment (PaymentReq.wrapped paymentNoAmount) "task-1" "0xabc"
        envRealOk
      = ⟨["Payment data is invalid. Please try again."],
          false, [], [], false, false⟩ :=
  promptForPayment_missing_amount_aborts (PaymentReq.wrapped paymentNoAmount)
    "task-1" "0xabc" envRealOk rfl

/-- Claim C6: in real mode, whenever the typed-data signature is obtained
(provider present, chain already correct or successfully switched or
successfully added after a 4902 switch error), the single request submitted
to the payments endpoint is the authorization body carrying the task
identifier, the sender address, the amount, the validity window and nonce
of the signed message, and the split-signature components v, r, s. -/
theorem promptForPayment_real_submits_full_body (req : PaymentReq)
    (taskId userAddress amt sigStr : String) (env : WalletEnv)
    (hdemo : env.isDemo = false) (heth : env.ethereumPresent = true)
    (hchain : env.chainId = 84532 ∨ env.switchChain = Except.ok ()
      ∨ (env.switchChain = Except.error 4902 ∧ env.addChain = Except.ok ()))
    (hsign : env.signTypedData = Except.ok sigStr)
    (hamt : req.extract.amount_usdc = some amt) :
    (promptForPayment req taskId userAddress env).requests
      = [AuthRequest.real
          { task_id := taskId
          , from_address := userAddress
          , amount_usdc := some amt
          , valid_after := req.extract.message.validAfter
          , valid_before := req.extract.message.validBefore
          , nonce := req.extract.message.nonce
          , sig_v := (env.splitSignature sigStr).v
          , sig_r := (env.splitSignature sigStr).r
          , sig_s := (env.splitSignature sigStr).s }] := by
  have hchain' : ∃ calls, ensureChain env = Except.ok calls := by
    unfold ensureChain
    rcases hchain with h | h | ⟨h1, h2⟩
    · exact ⟨[], by simp [h]⟩
    · by_cases hc : env.chainId = 84532
      · exact ⟨[], by simp [hc]⟩
      · exact ⟨["wallet_switchEthereumChain"], by simp [hc, h]⟩
    · by_cases hc : env.chainId = 84532
      · exact ⟨[], by simp [hc]⟩
      · exact ⟨["wallet_switchEthereumChain", "wallet_addEthereumChain"],
          by simp [hc, h1, h2]⟩
  obtain ⟨calls, hcalls⟩ := hchain'
  unfold promptForPayment
  rw [hamt]
  unfold approveClick
  rw [hdemo, heth, hcalls, hsign, hamt]
  cases h1 : env.authorizeOk <;> cases h2 : env.authorizeSuccess <;>
    simp [payFailureOutcome]

/-- A complete payment descriptor for the witness. -/
def paymentComplete : Payment :=
  { amount_usdc := some "1500"
  , domain := "USDC"
  , message := ⟨"0xfrom", "0xto", "1500", "10", "9999", "0xnonce"⟩ }

/-- Witness for claim C6 at a concrete descriptor and environment. -/
theorem promptForPayment_real_submits_full_body_witness :
    (promptForPayment (PaymentReq.wrapped paymentComplete) "task-1" "0xabc"
        envRealOk).requests
      = [AuthRequest.real
          { task_id := "task-1"
          , from_address := "0xabc"
          , amount_usdc := some "1500"
          , valid_after := "10"
          , valid_before := "9999"
          , nonce := "0xnonce"
          , sig_v := 27
          , sig_r := "0xr"
          , sig_s := "0xs" }] :=
  promptForPayment_real_submits_full_body (PaymentReq.wrapped paymentComplete)
    "task-1" "0xabc" "1500" "0xsig" envRealOk rfl rfl (Or.inl rfl) rfl rfl

/-! ## Task-limit rendering and creation failure (auth.js) -/

/-- Number of active (pending or running) tasks, as counted by
`renderTaskListWithTabs`. -/
def activeCount (tasks : List Task) : Nat :=
  (tasks.filter (fun t => t.status == "pending" || t.status == "running")).length

/-- The task-limit banner area of the task list. -/
inductive LimitBanner where
  | limitReached
  | warningTwo
  | noBanner
deriving DecidableEq, Repr

/-- The `taskLimitWarning` fragment of `renderTaskListWithTabs`: the red
limit-reached banner at three or more active tasks, the yellow warning at
exactly two, nothing otherwise. -/
def taskLimitWarning (tasks : List Task) : LimitBanner :=
  if 3 ≤ activeCount tasks then .limitReached
  else if activeCount tasks = 2 then .warningTwo
  else .noBanner

/-- The `isDisabled` computation of the agent cards in `renderTaskCreator`:
a card is non-interactive exactly when the session is unauthenticated or
some task is currently running — the active-task count plays no part. -/
def agentCardIsDisabled (isAuthenticated hasRunningTask : Bool) : Bool :=
  !isAuthenticated || hasRunningTask

/-- JavaScript `s.includes(pat)` for a non-empty pattern, via `splitOn`. -/
def jsIncludes (s pat : String) : Bool :=
  (s.splitOn pat).length != 1

/-- The catch block of `submitModalTask` in auth.js: the dedicated
task-limit alert fires only when the thrown error has a `status` property
equal to 400 and its message contains the limit text; otherwise the generic
creation-failure alert carries the error message. -/
def submitModalTaskErrorAlert (e : ApiError) : String :=
  if e.status = some 400 && jsIncludes e.message "Task limit reached" then
    "⚠️ Task Limit Reached\n\n" ++ e.message
      ++ "\n\n💡 Tip: Tasks usually complete within 1-2 minutes. Please check your task list below."
  else
    "Failed to create task: " ++ e.message

/-- Three pending tasks: three active, none running. -/
def threePendingTasks : List Task :=
  [⟨"t1", "pending"⟩, ⟨"t2", "pending"⟩, ⟨"t3", "pending"⟩]

/-- Claim C9 counterexample. With three pending (hence active, none
running) tasks the limit banner is shown, yet the agent cards of an
authenticated session stay enabled — creation is not disabled by the
active count. And when the server rejects a fourth creation with a 400
whose body carries the limit message, the error the fetch wrapper throws
has no status property and a status-text message, so the user sees the
generic creation-failure alert, not the server message verbatim. -/
theorem task_limit_not_disabling_and_message_lost :
    taskLimitWarning threePendingTasks = LimitBanner.limitReached ∧
    agentCardIsDisabled true false = false ∧
    (fetchFromAPI resp400WithDetail
        = FetchOutcome.thrown ⟨none, "API request failed: Bad Request"⟩ ∧
      submitModalTaskErrorAlert ⟨none, "API request failed: Bad Request"⟩
        = "Failed to create task: API request failed: Bad Request") := by
  exact ⟨rfl, rfl, rfl, rfl⟩

/-- Claim C9 amended: with exactly two active tasks the warning banner is
rendered and with three or more the limit-reached banner; the agent cards
of an authenticated session with no running task stay enabled whatever the
active count (cards are disabled only by the unauthenticated or
running-task flags); and a server-rejected creation attempt (non-OK status
other than 402/403) surfaces the generic alert built from the HTTP status
text, not the body of the server response. -/
theorem task_limit_banners_and_generic_alert (tasks : List Task)
    (resp : HttpResponse) (e : ApiError)
    (hok : resp.ok = false) (h402 : resp.status ≠ 402)
    (h403 : resp.status ≠ 403)
    (hthrown : fetchFromAPI resp = FetchOutcome.thrown e) :
    (activeCount tasks = 2 → taskLimitWarning tasks = LimitBanner.warningTwo) ∧
    (3 ≤ activeCount tasks → taskLimitWarning tasks = LimitBanner.limitReached) ∧
    (activeCount tasks < 2 → taskLimitWarning tasks = LimitBanner.noBanner) ∧
    agentCardIsDisabled true false = false ∧
    submitModalTaskErrorAlert e
      = "Failed to create task: API request failed: " ++ resp.statusText := by
  have he : e = ⟨none, "API request failed: " ++ resp.statusText⟩ := by
    unfold fetchFromAPI at hthrown
    simp [hok, h402, h403, tryDetailBranch] at hthrown
    rcases hb : resp.jsonBody with _ | b <;> simp [hb] at hthrown <;>
      exact hthrown.symm
  refine ⟨?_, ?_, ?_, rfl, ?_⟩
  · intro h2
    unfold taskLimitWarning
    rw [h2]
    simp
  · intro h3
    unfold taskLimitWarning
    simp [h3]
  · intro hlt
    unfold taskLimitWarning
    rw [if_neg (by omega), if_neg (by omega)]
  · rw [he]
    unfold submitModalTaskErrorAlert
    simp
    rw [← String.append_assoc]
    congr 1

/-- Two active tasks, one of them running. -/
def twoActiveTasks : List Task :=
  [⟨"t1", "pending"⟩, ⟨"t2", "running"⟩, ⟨"t3", "completed"⟩]

/-- Witness for the amended claim C9 at a concrete task list and a concrete
400 rejection. -/
theorem task_limit_banners_and_generic_alert_witness :
    (activeCount twoActiveTasks = 2 →
      taskLimitWarning twoActiveTasks = LimitBanner.warningTwo) ∧
    (3 ≤ activeCount twoActiveTasks →
      taskLimitWarning twoActiveTasks = LimitBanner.limitReached) ∧
    (activeCount twoActiveTasks < 2 →
      taskLimitWarning twoActiveTasks = LimitBanner.noBanner) ∧
    agentCardIsDisabled true false = false ∧
    submitModalTaskErrorAlert ⟨none, "API request failed: Bad Request"⟩
      = "Failed to create task: API request failed: "
          ++ resp400WithDetail.statusText :=
  task_limit_banners_and_generic_alert twoActiveTasks resp400WithDetail
    ⟨none, "API request failed: Bad Request"⟩ rfl (by decide) (by decide) rfl

end AgentBounty
